import Mathlib

/-
Shallow embedding of the Sisyphus multi-agent orchestration core of the
devora-cli repository, together with proofs checking the natural-language
specification against the code.

Embedded source files:
- packages/core/src/tools/sisyphus/delegate-task.ts
  (DelegateTaskTool.validateToolParamValues, DelegateTaskInvocation.execute,
   BackgroundTaskManager: startBackgroundTask, getTaskResult, cancelTask,
   cancelAll, cleanup)
- packages/core/src/tools/sisyphus/background-task.ts
  (BackgroundOutputInvocation.execute)
- packages/core/src/agents/sisyphus/sisyphus.ts (DEFAULT_CATEGORIES)

Modelling conventions:
- The manager's `Map<string, Task>` is embedded as a function
  `TaskId → Option BackgroundTask` (JS Map get/set/delete semantics; the
  per-entry loops of cancelAll/cleanup act independently on each entry and
  are embedded pointwise).
- Task ids are the strings `task_<Date.now()>_<randomSuffix>` produced by
  startBackgroundTask; they are embedded structurally as the pair of the
  millisecond timestamp and the suffix, so that cleanup's
  `parseInt(taskId.split(\x27_\x27)[1], 10)` is the stored timestamp.
- `Date.now()` and `Math.random()` are environment inputs and appear as
  explicit parameters (`now`, `suffix`).
- JS string truthiness (`undefined` and `""` are falsy) is `strTruthy`.
- Temperatures are embedded as rationals; the source only stores and
  compares the literals, never computes with them.
-/

namespace Devora

/-- Task lifecycle status, from the BackgroundTaskManager task record:
`status: 'pending' | 'running' | 'completed' | 'error' | 'cancelled'`. -/
inductive TaskStatus where
  | pending
  | running
  | completed
  | error
  | cancelled
deriving DecidableEq, Repr

/-- A status is terminal when it is completed, error or cancelled. -/
def TaskStatus.isTerminal : TaskStatus → Bool
  | .completed => true
  | .error => true
  | .cancelled => true
  | _ => false

/-- Position of a status along the lifecycle order
pending → running → terminal. -/
def statusRank : TaskStatus → Nat
  | .pending => 0
  | .running => 1
  | _ => 2

/-- Error type tag used by tool results (tool-error.ts); only
EXECUTION_FAILED is used by the embedded code. -/
inductive ToolErrorType where
  | EXECUTION_FAILED
deriving DecidableEq, Repr

/-- The `error` field of a ToolResult. -/
structure ToolErrorInfo where
  message : String
  type : ToolErrorType
deriving DecidableEq, Repr

/-- ToolResult as used by the embedded tools: llmContent and returnDisplay
strings plus an optional error field. -/
structure ToolResult where
  llmContent : String
  returnDisplay : String
  error : Option ToolErrorInfo := none
deriving DecidableEq, Repr

/-- A JavaScript Error value, kept as its message. -/
structure JsError where
  message : String
deriving DecidableEq, Repr

/-- A task id `task_<ts>_<suffix>` generated by startBackgroundTask,
embedded as its timestamp and random-suffix components. -/
structure TaskId where
  ts : Int
  suffix : String
deriving DecidableEq, Repr

/-- The id rendered back to its source string form. -/
def taskIdString (id : TaskId) : String :=
  "task_" ++ toString id.ts ++ "_" ++ id.suffix

/-- One entry of BackgroundTaskManager.tasks:
`{id, description, agent, status, result?, error?}`. -/
structure BackgroundTask where
  id : TaskId
  description : String
  agent : String
  status : TaskStatus
  result : Option ToolResult := none
  error : Option JsError := none
deriving DecidableEq, Repr

/-- The BackgroundTaskManager's mutable state: its `tasks` map. -/
structure ManagerState where
  tasks : TaskId → Option BackgroundTask

/-- The manager state with no tasks registered. -/
def emptyState : ManagerState := ⟨fun _ => none⟩

/-- The map write `this.tasks.set(taskId, t)` on the manager state. -/
def setTask (s : ManagerState) (taskId : TaskId) (t : BackgroundTask) :
    ManagerState :=
  ⟨fun k => if k = taskId then some t else s.tasks k⟩

/-- BackgroundTaskManager.startBackgroundTask: allocates the id
`task_<Date.now()>_<suffix>`, stores the task with status pending, then
immediately overwrites it with status completed (the source's
"TODO: Implement actual background execution / For now, mark as completed
immediately"), and returns the id. Neither stored record carries a result
or an error. `now` and `suffix` are the environment inputs Date.now() and
the random suffix. -/
def startBackgroundTask (s : ManagerState)
    (description agent _prompt : String) (now : Int) (suffix : String) :
    TaskId × ManagerState :=
  let taskId : TaskId := { ts := now, suffix := suffix }
  let s1 := setTask s taskId
    { id := taskId, description := description, agent := agent,
      status := .pending }
  let s2 := setTask s1 taskId
    { id := taskId, description := description, agent := agent,
      status := .completed }
  (taskId, s2)

/-- Return value of BackgroundTaskManager.getTaskResult:
`ToolResult | Error | null`. -/
inductive TaskResultOutcome where
  | err (e : JsError)
  | result (r : ToolResult)
  | null
deriving DecidableEq, Repr

/-- BackgroundTaskManager.getTaskResult: unknown id yields an Error value;
a task with status error and a stored error yields that error; a task
with status completed and a stored result yields that result; every other
case yields null ("Task not complete yet"). -/
def getTaskResult (s : ManagerState) (taskId : TaskId) :
    TaskResultOutcome :=
  match s.tasks taskId with
  | none => .err { message := "Task " ++ taskIdString taskId ++ " not found" }
  | some task =>
    match task.status, task.error, task.result with
    | .error, some e, _ => .err e
    | .completed, _, some r => .result r
    | _, _, _ => .null

/-- BackgroundTaskManager.cancelTask: unknown id returns false; a pending
or running task is re-stored with status cancelled (spread keeps every
other field) and true is returned; otherwise false with no change. -/
def cancelTask (s : ManagerState) (taskId : TaskId) : Bool × ManagerState :=
  match s.tasks taskId with
  | none => (false, s)
  | some task =>
    if task.status = .pending ∨ task.status = .running then
      (true, setTask s taskId { task with status := .cancelled })
    else
      (false, s)

/-- BackgroundTaskManager.cancelAll: every pending or running task is
re-stored with status cancelled; every other entry is untouched. The
source's entry loop acts on each entry independently and is embedded
pointwise. -/
def cancelAll (s : ManagerState) : ManagerState :=
  ⟨fun k =>
    match s.tasks k with
    | none => none
    | some task =>
      if task.status = .pending ∨ task.status = .running then
        some { task with status := .cancelled }
      else
        some task⟩

/-- BackgroundTaskManager.cleanup: with cutoff = now - olderThanMs,
deletes every task whose status is completed or cancelled and whose id
timestamp (the source's `parseInt(taskId.split(\x27_\x27)[1], 10)`) is
below the cutoff; every other entry is untouched. Note the source tests
only completed and cancelled: tasks in status error are never removed. -/
def cleanup (s : ManagerState) (now : Int) (olderThanMs : Int) :
    ManagerState :=
  let cutoff := now - olderThanMs
  ⟨fun k =>
    match s.tasks k with
    | none => none
    | some task =>
      if (task.status = .completed ∨ task.status = .cancelled) ∧
          k.ts < cutoff then
        none
      else
        some task⟩

/-- Parameters of the background_output tool:
`{task_id, block?, timeout?}`. -/
structure BackgroundOutputParams where
  task_id : TaskId
  block : Option Bool := none
  timeout : Option Int := none
deriving DecidableEq, Repr

/-- The ToolResult built by BackgroundOutputInvocation.execute when
getTaskResult yields null: the task is reported as still running. -/
def stillRunningResult (taskId : TaskId) : ToolResult :=
  { llmContent :=
      "Task " ++ taskIdString taskId ++ " is still running or not found."
    returnDisplay :=
      "Task `" ++ taskIdString taskId ++
        "` is still running. Use background_output again later to check status." }

/-- BackgroundOutputInvocation.execute: one getTaskResult call on the
manager. An Error value becomes an error ToolResult; null becomes the
still-running report; a stored result is returned as-is. The `block` and
`timeout` parameters are accepted but never read by the source body. -/
def backgroundOutputExecute (s : ManagerState)
    (params : BackgroundOutputParams) : ToolResult :=
  match getTaskResult s params.task_id with
  | .err e =>
      { llmContent :=
          "Error retrieving task " ++ taskIdString params.task_id ++ ": " ++
            e.message
        returnDisplay := "Error: " ++ e.message
        error := some { message := e.message
                        type := .EXECUTION_FAILED } }
  | .null => stillRunningResult params.task_id
  | .result r => r

/-- One registry operation, for lifecycle invariants quantified over the
manager's public surface. -/
inductive RegistryOp where
  | start (description agent prompt : String) (now : Int) (suffix : String)
  | cancelOne (taskId : TaskId)
  | cancelEvery
  | cleanupOld (now : Int) (olderThanMs : Int)
  | getResultOf (taskId : TaskId)
deriving DecidableEq, Repr

/-- State transition of one registry operation (getTaskResult is a pure
read and leaves the state unchanged). -/
def step (s : ManagerState) : RegistryOp → ManagerState
  | .start d a p now suffix => (startBackgroundTask s d a p now suffix).2
  | .cancelOne taskId => (cancelTask s taskId).2
  | .cancelEvery => cancelAll s
  | .cleanupOld now olderThanMs => cleanup s now olderThanMs
  | .getResultOf _ => s

/-- Freshness of the id generated by a start operation: Date.now() plus
the random suffix never collide with an id already in the map (the
source's "effectively-unique" id scheme). Non-start operations carry no
obligation. -/
def opFresh (s : ManagerState) : RegistryOp → Prop
  | .start _ _ _ now suffix => s.tasks { ts := now, suffix := suffix } = none
  | _ => True

/-- Whether an operation is a start whose generated id is the given one. -/
def opStartsId : RegistryOp → TaskId → Prop
  | .start _ _ _ now suffix, id => id = { ts := now, suffix := suffix }
  | _, _ => False

/-- One entry of the category table: `{description, temperature}`
(agents/sisyphus/sisyphus.ts, CategoryConfig). -/
structure CategoryConfig where
  description : String
  temperature : ℚ
deriving DecidableEq, Repr

/-- The static category table DEFAULT_CATEGORIES from
agents/sisyphus/sisyphus.ts, in source order. -/
def DEFAULT_CATEGORIES : List (String × CategoryConfig) :=
  [("visual",
    { description := "Tâches visuelles, frontend, UI/UX, design"
      temperature := 0.8 }),
   ("business-logic",
    { description := "Logique métier, backend, architecture"
      temperature := 0.2 }),
   ("writing",
    { description := "Documentation, rédaction, prose"
      temperature := 0.7 }),
   ("quick",
    { description := "Tâches triviales, rapides"
      temperature := 0.1 }),
   ("architecture",
    { description := "Décisions d\x27architecture (via Oracle)"
      temperature := 0.0 })]

/-- The key list `Object.keys(DEFAULT_CATEGORIES)`. -/
def categoryKeys : List String := DEFAULT_CATEGORIES.map Prod.fst

/-- The table access `DEFAULT_CATEGORIES[c]` as a key lookup. -/
def categoryLookup (c : String) : Option CategoryConfig :=
  (DEFAULT_CATEGORIES.find? (fun q => q.1 == c)).map Prod.snd

/-- JS truthiness of an optional string field: `undefined` and the empty
string are falsy. -/
def strTruthy : Option String → Bool
  | none => false
  | some s => !(s == "")

/-- DelegateTaskArgs: the delegate_task tool's parameters. Optional
fields are `Option`; absent is `none`. -/
structure DelegateTaskArgs where
  description : String
  prompt : String
  subagent_type : Option String := none
  category : Option String := none
  run_in_background : Bool
  skills : List String
  resume : Option String := none
deriving DecidableEq, Repr

/-- DelegateTaskTool.validateToolParamValues: rejects a request with both
category and subagent_type set; a category absent from
DEFAULT_CATEGORIES, with the valid category names joined into the
message; and a subagent_type absent from the agent registry, with the
valid agent names joined into the message. Otherwise (after only logging
for run_in_background) it accepts with null. `registryAgents` is the
name list of `registry.getAllDefinitions()`. -/
def validateToolParamValues (registryAgents : List String)
    (params : DelegateTaskArgs) : Option String :=
  if strTruthy params.category && strTruthy params.subagent_type then
    some "Cannot specify both \"category\" and \"subagent_type\". Use one or the other."
  else if strTruthy params.category &&
      !(categoryKeys.contains (params.category.getD "")) then
    some ("Unknown category: \"" ++ params.category.getD "" ++
      "\". Available categories: " ++ String.intercalate ", " categoryKeys)
  else if strTruthy params.subagent_type &&
      !(registryAgents.contains (params.subagent_type.getD "")) then
    some ("Unknown agent: \"" ++ params.subagent_type.getD "" ++
      "\". Available agents: " ++ String.intercalate ", " registryAgents)
  else
    none

/-- The target an execution resolves to: the agent name and the optional
temperature override requested for a category. -/
structure ResolvedTarget where
  agentName : String
  temperature : Option ℚ := none
deriving DecidableEq, Repr

/-- The target-resolution head of DelegateTaskInvocation.execute: a
truthy subagent_type is used directly with no temperature; otherwise a
truthy category resolves to the agent "sisyphus" with the category's
configured temperature; otherwise the default is "sisyphus" with no
temperature. -/
def resolveTarget (params : DelegateTaskArgs) : ResolvedTarget :=
  if strTruthy params.subagent_type then
    { agentName := params.subagent_type.getD "" }
  else if strTruthy params.category then
    { agentName := "sisyphus"
      temperature :=
        (categoryLookup (params.category.getD "")).map
          (fun cfg => cfg.temperature) }
  else
    { agentName := "sisyphus" }

/-- Every status has rank at most 2 in the lifecycle order. -/
theorem statusRank_le_two (st : TaskStatus) : statusRank st ≤ 2 := by
  cases st <;> simp [statusRank]

/-- Pointwise effect of one registry operation on an entry it does not
start: the entry is unchanged, removed, or (when pending or running)
re-stored as cancelled. -/
theorem step_tasks_cases (s : ManagerState) (op : RegistryOp) (k : TaskId)
    (hop : ¬ opStartsId op k) :
    (step s op).tasks k = s.tasks k ∨
    (step s op).tasks k = none ∨
    (∃ t, s.tasks k = some t ∧
      (t.status = .pending ∨ t.status = .running) ∧
      (step s op).tasks k = some { t with status := .cancelled }) := by
  cases op with
  | start d a p now suf =>
    have hne : k ≠ ({ ts := now, suffix := suf } : TaskId) := by
      simpa [opStartsId] using hop
    left
    simp [step, startBackgroundTask, setTask, hne]
  | cancelOne tid =>
    simp only [step]
    rcases hk : s.tasks tid with _ | task
    · left; simp [cancelTask, hk]
    · by_cases hp : task.status = .pending ∨ task.status = .running
      · by_cases hik : k = tid
        · subst hik
          exact Or.inr (Or.inr ⟨task, hk, hp,
            by simp [cancelTask, hk, hp, setTask]⟩)
        · left; simp [cancelTask, hk, hp, setTask, hik]
      · left; simp [cancelTask, hk, hp]
  | cancelEvery =>
    simp only [step, cancelAll]
    rcases hk : s.tasks k with _ | task
    · left; simp [hk]
    · by_cases hp : task.status = .pending ∨ task.status = .running
      · exact Or.inr (Or.inr ⟨task, rfl, hp, by simp [hk, hp]⟩)
      · left; simp [hk, hp]
  | cleanupOld now ms =>
    simp only [step, cleanup]
    rcases hk : s.tasks k with _ | task
    · left; simp [hk]
    · by_cases hc : (task.status = .completed ∨ task.status = .cancelled) ∧
        k.ts < now - ms
      · right; left; simp [hk, hc]
      · left; simp [hk, hc]
  | getResultOf tid => left; rfl

/-- A completed entry that no later operation re-starts is preserved
verbatim by any sequence of registry operations, or removed. -/
theorem foldl_preserves_completed_entry (T : BackgroundTask)
    (hT : T.status = .completed) :
    ∀ (ops : List RegistryOp) (s : ManagerState) (tid : TaskId),
      (∀ op ∈ ops, ¬ opStartsId op tid) →
      (s.tasks tid = none ∨ s.tasks tid = some T) →
      ((ops.foldl step s).tasks tid = none ∨
        (ops.foldl step s).tasks tid = some T) := by
  intro ops
  induction ops with
  | nil => intro s tid _ h; exact h
  | cons op rest ih =>
    intro s tid hops h
    have hop : ¬ opStartsId op tid := hops op (List.mem_cons_self _ _)
    have hrest : ∀ o ∈ rest, ¬ opStartsId o tid :=
      fun o ho => hops o (List.mem_cons_of_mem _ ho)
    apply ih (step s op) tid hrest
    rcases step_tasks_cases s op tid hop with he | hn | ⟨u, hu, hup, heq⟩
    · rw [he]; exact h
    · left; exact hn
    · rcases h with h | h
      · rw [h] at hu; cases hu
      · rw [h] at hu
        injection hu with huT
        subst huT
        rw [hT] at hup
        rcases hup with hp | hp <;> cases hp

/-- Claim C4: the task lifecycle is monotone. For every registry
operation (start with a fresh id, cancel one, cancel all, cleanup,
retrieval) and every task present before and after the operation, the
status never moves backwards along pending → running → terminal, and a
task already in a terminal state is left entirely unchanged. -/
theorem task_lifecycle_monotone (s : ManagerState) (op : RegistryOp)
    (id : TaskId) (t t' : BackgroundTask) (hfresh : opFresh s op)
    (ht : s.tasks id = some t) (ht' : (step s op).tasks id = some t') :
    statusRank t.status ≤ statusRank t'.status ∧
    (t.status.isTerminal = true → t' = t) := by
  have hop : ¬ opStartsId op id := by
    cases op with
    | start d a p now suf =>
      simp only [opFresh] at hfresh
      intro hcontra
      simp only [opStartsId] at hcontra
      rw [hcontra, hfresh] at ht
      cases ht
    | cancelOne tid => simp [opStartsId]
    | cancelEvery => simp [opStartsId]
    | cleanupOld now ms => simp [opStartsId]
    | getResultOf tid => simp [opStartsId]
  rcases step_tasks_cases s op id hop with he | hn | ⟨u, hu, hup, heq⟩
  · rw [he, ht] at ht'
    injection ht' with htt
    subst htt
    exact ⟨le_refl _, fun _ => rfl⟩
  · rw [hn] at ht'
    cases ht'
  · rw [hu] at ht
    injection ht with hut
    subst hut
    rw [heq] at ht'
    injection ht' with htt
    subst htt
    constructor
    · simpa [statusRank] using statusRank_le_two u.status
    · intro hterm
      rcases hup with hp | hp <;>
        rw [hp] at hterm <;> simp [TaskStatus.isTerminal] at hterm

/-- Claim C4, witness: a completed task survives a single-task cancel
unchanged; the monotonicity theorem applied at that concrete state. -/
theorem task_lifecycle_monotone_witness :
    statusRank TaskStatus.completed ≤ statusRank TaskStatus.completed ∧
    (TaskStatus.completed.isTerminal = true →
      ({ id := { ts := 5, suffix := "w" }, description := "d",
         agent := "oracle", status := .completed } : BackgroundTask) =
      { id := { ts := 5, suffix := "w" }, description := "d",
        agent := "oracle", status := .completed }) :=
  task_lifecycle_monotone
    (setTask emptyState { ts := 5, suffix := "w" }
      { id := { ts := 5, suffix := "w" }, description := "d",
        agent := "oracle", status := .completed })
    (.cancelOne { ts := 5, suffix := "w" })
    { ts := 5, suffix := "w" }
    { id := { ts := 5, suffix := "w" }, description := "d",
      agent := "oracle", status := .completed }
    { id := { ts := 5, suffix := "w" }, description := "d",
      agent := "oracle", status := .completed }
    (by simp [opFresh]) (by decide) (by decide)

/-- Claim C5: cancelTask returns true and re-stores the task as
cancelled exactly when its status was pending or running; an unknown id
or an already-terminal task yields false with the state unchanged. -/
theorem cancelTask_spec (s : ManagerState) (id : TaskId) :
    (∀ t, s.tasks id = some t →
      (t.status = .pending ∨ t.status = .running) →
        (cancelTask s id).1 = true ∧
        (cancelTask s id).2.tasks id =
          some { t with status := .cancelled }) ∧
    (∀ t, s.tasks id = some t →
      ¬(t.status = .pending ∨ t.status = .running) →
        (cancelTask s id).1 = false ∧ (cancelTask s id).2 = s) ∧
    (s.tasks id = none →
        (cancelTask s id).1 = false ∧ (cancelTask s id).2 = s) := by
  refine ⟨?_, ?_, ?_⟩
  · intro t ht hst
    simp [cancelTask, ht, hst, setTask]
  · intro t ht hst
    simp [cancelTask, ht, hst]
  · intro h
    simp [cancelTask, h]

/-- Claim C5, witness: cancelling a pending task succeeds and cancelling
an unknown id is refused without touching the state; the cancelTask
characterisation applied at concrete states. -/
theorem cancelTask_spec_witness :
    ((cancelTask
        (setTask emptyState { ts := 7, suffix := "p" }
          { id := { ts := 7, suffix := "p" }, description := "d",
            agent := "explore", status := .pending })
        { ts := 7, suffix := "p" }).1 = true ∧
      (cancelTask
        (setTask emptyState { ts := 7, suffix := "p" }
          { id := { ts := 7, suffix := "p" }, description := "d",
            agent := "explore", status := .pending })
        { ts := 7, suffix := "p" }).2.tasks { ts := 7, suffix := "p" } =
        some { id := { ts := 7, suffix := "p" }, description := "d",
               agent := "explore", status := .cancelled }) ∧
    ((cancelTask emptyState { ts := 8, suffix := "q" }).1 = false ∧
      (cancelTask emptyState { ts := 8, suffix := "q" }).2 = emptyState) :=
  ⟨(cancelTask_spec
      (setTask emptyState { ts := 7, suffix := "p" }
        { id := { ts := 7, suffix := "p" }, description := "d",
          agent := "explore", status := .pending })
      { ts := 7, suffix := "p" }).1
      { id := { ts := 7, suffix := "p" }, description := "d",
        agent := "explore", status := .pending }
      (by decide) (by decide),
   (cancelTask_spec emptyState { ts := 8, suffix := "q" }).2.2 rfl⟩

/-- Claim C6: cancelAll re-stores every pending or running task as
cancelled, keeping all its other fields, and leaves every task already
terminal (and every absent id) entirely unchanged, stored result and
error included. -/
theorem cancelAll_spec (s : ManagerState) (id : TaskId) :
    (∀ t, s.tasks id = some t →
      (cancelAll s).tasks id =
        some (if t.status = .pending ∨ t.status = .running then
                { t with status := .cancelled }
              else t)) ∧
    (s.tasks id = none → (cancelAll s).tasks id = none) := by
  constructor
  · intro t ht
    by_cases hp : t.status = .pending ∨ t.status = .running <;>
      simp [cancelAll, ht, hp]
  · intro h
    simp [cancelAll, h]

/-- Claim C6, witness: cancelAll applied to a state holding one running
task and one errored task with a stored error: the running one becomes
cancelled, the errored one is returned verbatim. -/
theorem cancelAll_spec_witness :
    ((cancelAll
        (setTask
          (setTask emptyState { ts := 1, suffix := "r" }
            { id := { ts := 1, suffix := "r" }, description := "d1",
              agent := "explore", status := .running })
          { ts := 2, suffix := "e" }
          { id := { ts := 2, suffix := "e" }, description := "d2",
            agent := "oracle", status := .error,
            error := some { message := "boom" } })).tasks
        { ts := 1, suffix := "r" } =
      some (if (TaskStatus.running = .pending ∨
                TaskStatus.running = .running) then
              { id := { ts := 1, suffix := "r" }, description := "d1",
                agent := "explore", status := .cancelled }
            else
              { id := { ts := 1, suffix := "r" }, description := "d1",
                agent := "explore", status := .running })) ∧
    ((cancelAll
        (setTask
          (setTask emptyState { ts := 1, suffix := "r" }
            { id := { ts := 1, suffix := "r" }, description := "d1",
              agent := "explore", status := .running })
          { ts := 2, suffix := "e" }
          { id := { ts := 2, suffix := "e" }, description := "d2",
            agent := "oracle", status := .error,
            error := some { message := "boom" } })).tasks
        { ts := 2, suffix := "e" } =
      some (if (TaskStatus.error = .pending ∨
                TaskStatus.error = .running) then
              { id := { ts := 2, suffix := "e" }, description := "d2",
                agent := "oracle", status := .cancelled,
                error := some { message := "boom" } }
            else
              { id := { ts := 2, suffix := "e" }, description := "d2",
                agent := "oracle", status := .error,
                error := some { message := "boom" } })) :=
  ⟨(cancelAll_spec
      (setTask
        (setTask emptyState { ts := 1, suffix := "r" }
          { id := { ts := 1, suffix := "r" }, description := "d1",
            agent := "explore", status := .running })
        { ts := 2, suffix := "e" }
        { id := { ts := 2, suffix := "e" }, description := "d2",
          agent := "oracle", status := .error,
          error := some { message := "boom" } })
      { ts := 1, suffix := "r" }).1
      { id := { ts := 1, suffix := "r" }, description := "d1",
        agent := "explore", status := .running } (by decide),
   (cancelAll_spec
      (setTask
        (setTask emptyState { ts := 1, suffix := "r" }
          { id := { ts := 1, suffix := "r" }, description := "d1",
            agent := "explore", status := .running })
        { ts := 2, suffix := "e" }
        { id := { ts := 2, suffix := "e" }, description := "d2",
          agent := "oracle", status := .error,
          error := some { message := "boom" } })
      { ts := 2, suffix := "e" }).1
      { id := { ts := 2, suffix := "e" }, description := "d2",
        agent := "oracle", status := .error,
        error := some { message := "boom" } } (by decide)⟩

/-- Claim C7, amended: cleanup removes exactly the tasks whose status is
completed or cancelled and whose id timestamp is older than the cutoff
now - olderThanMs; every other task — pending, running, and also
terminal error tasks — is kept entirely unchanged. -/
theorem cleanup_spec_amended (s : ManagerState) (now olderThanMs : Int)
    (id : TaskId) (t : BackgroundTask) (ht : s.tasks id = some t) :
    ((cleanup s now olderThanMs).tasks id = none ↔
      ((t.status = .completed ∨ t.status = .cancelled) ∧
        id.ts < now - olderThanMs)) ∧
    (∀ t', (cleanup s now olderThanMs).tasks id = some t' → t' = t) := by
  by_cases h : (t.status = .completed ∨ t.status = .cancelled) ∧
      id.ts < now - olderThanMs
  · constructor
    · simp [cleanup, ht, h]
    · intro t' ht'
      simp [cleanup, ht, h] at ht'
  · constructor
    · simp [cleanup, ht, h]
    · intro t' ht'
      simp [cleanup, ht, h] at ht'
      exact ht'.symm

/-- Claim C7, witness: the amended cleanup characterisation applied at a
concrete state holding one stale completed task and one running task:
the completed one is removed, the running one kept verbatim. -/
theorem cleanup_spec_amended_witness :
    ((cleanup
        (setTask
          (setTask emptyState { ts := 0, suffix := "c" }
            { id := { ts := 0, suffix := "c" }, description := "d1",
              agent := "explore", status := .completed })
          { ts := 0, suffix := "r" }
          { id := { ts := 0, suffix := "r" }, description := "d2",
            agent := "oracle", status := .running })
        10000000 3600000).tasks { ts := 0, suffix := "c" } = none) ∧
    (¬ ((cleanup
        (setTask
          (setTask emptyState { ts := 0, suffix := "c" }
            { id := { ts := 0, suffix := "c" }, description := "d1",
              agent := "explore", status := .completed })
          { ts := 0, suffix := "r" }
          { id := { ts := 0, suffix := "r" }, description := "d2",
            agent := "oracle", status := .running })
        10000000 3600000).tasks { ts := 0, suffix := "r" } = none)) :=
  ⟨(cleanup_spec_amended
      (setTask
        (setTask emptyState { ts := 0, suffix := "c" }
          { id := { ts := 0, suffix := "c" }, description := "d1",
            agent := "explore", status := .completed })
        { ts := 0, suffix := "r" }
        { id := { ts := 0, suffix := "r" }, description := "d2",
          agent := "oracle", status := .running })
      10000000 3600000 { ts := 0, suffix := "c" }
      { id := { ts := 0, suffix := "c" }, description := "d1",
        agent := "explore", status := .completed }
      (by decide)).1.mpr (by decide),
   fun hnone =>
     by
       have := (cleanup_spec_amended
         (setTask
           (setTask emptyState { ts := 0, suffix := "c" }
             { id := { ts := 0, suffix := "c" }, description := "d1",
               agent := "explore", status := .completed })
           { ts := 0, suffix := "r" }
           { id := { ts := 0, suffix := "r" }, description := "d2",
             agent := "oracle", status := .running })
         10000000 3600000 { ts := 0, suffix := "r" }
         { id := { ts := 0, suffix := "r" }, description := "d2",
           agent := "oracle", status := .running }
         (by decide)).1.mp hnone
       exact absurd this.1 (by decide)⟩

/-- Claim C1: the claim states that a background delegation returns the
task id while the task is still non-terminal, the transitions to running
and to a terminal state happening asynchronously afterwards. The code
refutes this: startBackgroundTask overwrites the pending record with
status completed synchronously, so at the moment the id reaches the
caller the task is already terminal, and it never passes through
running. -/
theorem start_marks_completed_before_return :
    (((startBackgroundTask emptyState "desc" "explore" "prompt" 1000
        "abc").2).tasks
      (startBackgroundTask emptyState "desc" "explore" "prompt" 1000
        "abc").1).map (fun t => t.status) = some .completed ∧
    TaskStatus.isTerminal .completed = true := by
  constructor
  · rfl
  · rfl

/-- Claim C2: the claim states that retrieval with block = true polls
until the task is terminal or the timeout elapses and then returns a
TimedOut value. The code refutes this: BackgroundOutputInvocation.execute
never reads block or timeout, so retrieval on a pending task with
block = true and timeout = 60000 returns the still-running report
immediately, identically to a non-blocking call, and no TimedOut value
exists. -/
theorem background_output_ignores_block_and_timeout :
    (∀ (s : ManagerState) (id : TaskId) (b b' : Option Bool)
        (t t' : Option Int),
      backgroundOutputExecute s { task_id := id, block := b, timeout := t } =
        backgroundOutputExecute s
          { task_id := id, block := b', timeout := t' }) ∧
    (let id : TaskId := { ts := 1000, suffix := "abc" }
     let s := setTask emptyState id
       { id := id, description := "d", agent := "explore",
         status := .pending }
     ((s.tasks id).map (fun t => t.status) = some .pending) ∧
     backgroundOutputExecute s
         { task_id := id, block := some true, timeout := some 60000 } =
       stillRunningResult id) := by
  refine ⟨fun s id b b' t t' => rfl, rfl, rfl⟩

/-- Claim C3: the claim states that registering a background task and
cancelling it before it runs yields final state cancelled, and that
retrieval reports a cancelled task as cancelled. The code refutes both:
the task is already completed when the id is returned, so the cancel is
refused (false) and the status stays completed; and getTaskResult on a
task in status cancelled yields null, which the output tool reports as
still running, not as cancelled. -/
theorem cancel_after_start_refused_and_cancelled_reads_null :
    (let r := startBackgroundTask emptyState "d" "explore" "p" 1000 "abc"
     let c := cancelTask r.2 r.1
     c.1 = false ∧
       ((c.2.tasks r.1).map (fun t => t.status) = some .completed)) ∧
    (let id : TaskId := { ts := 2000, suffix := "xyz" }
     let sc := setTask emptyState id
       { id := id, description := "d2", agent := "explore",
         status := .cancelled }
     getTaskResult sc id = .null ∧
       backgroundOutputExecute sc { task_id := id } =
         stillRunningResult id) := by
  exact ⟨⟨rfl, rfl⟩, rfl, rfl⟩

/-- Claim C8: delegation parameter validation fails with a message when
both a category and a direct agent are given, when the named category is
absent from DEFAULT_CATEGORIES, and when the named agent is absent from
the agent directory; in the absent-name cases the message joins the
complete list of valid names. Validation is a pure function on the
parameters and the directory, so no task is registered and no agent
invoked on failure. -/
theorem validate_delegate_params_spec (agents : List String)
    (p : DelegateTaskArgs) :
    (strTruthy p.category = true → strTruthy p.subagent_type = true →
      validateToolParamValues agents p =
        some "Cannot specify both \"category\" and \"subagent_type\". Use one or the other.") ∧
    (∀ c, p.category = some c → c ≠ "" →
      strTruthy p.subagent_type = false → c ∉ categoryKeys →
      validateToolParamValues agents p =
        some ("Unknown category: \"" ++ c ++
          "\". Available categories: " ++
          String.intercalate ", " categoryKeys)) ∧
    (∀ a, p.subagent_type = some a → a ≠ "" →
      strTruthy p.category = false → a ∉ agents →
      validateToolParamValues agents p =
        some ("Unknown agent: \"" ++ a ++ "\". Available agents: " ++
          String.intercalate ", " agents)) ∧
    String.intercalate ", " categoryKeys =
      "visual, business-logic, writing, quick, architecture" := by
  refine ⟨?_, ?_, ?_, by decide⟩
  · intro h1 h2
    simp [validateToolParamValues, h1, h2]
  · intro c hc hne hsub hmem
    have hct : strTruthy (some c) = true := by simp [strTruthy, hne]
    have hcont : categoryKeys.contains c = false := by simpa using hmem
    simp [validateToolParamValues, hct, hsub, hc, hcont, hmem]
  · intro a ha hne hcat hmem
    have hat : strTruthy (some a) = true := by simp [strTruthy, hne]
    have hcont : agents.contains a = false := by simpa using hmem
    simp [validateToolParamValues, hat, hcat, ha, hcont, hmem]

/-- Claim C8, witness: the validation characterisation applied at
concrete requests: both targets set, an unknown category, and an unknown
agent, each rejected with the enumerating message. -/
theorem validate_delegate_params_spec_witness :
    validateToolParamValues ["sisyphus", "oracle"]
        { description := "d", prompt := "p",
          subagent_type := some "oracle", category := some "visual",
          run_in_background := false, skills := [] } =
      some "Cannot specify both \"category\" and \"subagent_type\". Use one or the other." ∧
    validateToolParamValues ["sisyphus", "oracle"]
        { description := "d", prompt := "p", category := some "nope",
          run_in_background := false, skills := [] } =
      some ("Unknown category: \"nope\". Available categories: " ++
        String.intercalate ", " categoryKeys) ∧
    validateToolParamValues ["sisyphus", "oracle"]
        { description := "d", prompt := "p",
          subagent_type := some "ghost",
          run_in_background := false, skills := [] } =
      some ("Unknown agent: \"ghost\". Available agents: " ++
        String.intercalate ", " ["sisyphus", "oracle"]) :=
  ⟨(validate_delegate_params_spec ["sisyphus", "oracle"]
      { description := "d", prompt := "p",
        subagent_type := some "oracle", category := some "visual",
        run_in_background := false, skills := [] }).1
      (by decide) (by decide),
   (validate_delegate_params_spec ["sisyphus", "oracle"]
      { description := "d", prompt := "p", category := some "nope",
        run_in_background := false, skills := [] }).2.1
      "nope" rfl (by decide) (by decide) (by decide),
   (validate_delegate_params_spec ["sisyphus", "oracle"]
      { description := "d", prompt := "p",
        subagent_type := some "ghost",
        run_in_background := false, skills := [] }).2.2.1
      "ghost" rfl (by decide) (by decide) (by decide)⟩

/-- Claim C9: target resolution. A truthy direct agent resolves to that
agent with no temperature override; a truthy category (with no direct
agent) resolves to the default orchestrator "sisyphus" with the
category's configured temperature, in particular 0.8 for "visual" and
0.1 for "quick"; with neither given the target is "sisyphus" with no
override. -/
theorem resolve_target_spec (p : DelegateTaskArgs) :
    (∀ a, p.subagent_type = some a → a ≠ "" →
      resolveTarget p = { agentName := a }) ∧
    (∀ c cfg, strTruthy p.subagent_type = false → p.category = some c →
      c ≠ "" → categoryLookup c = some cfg →
      resolveTarget p =
        { agentName := "sisyphus",
          temperature := some cfg.temperature }) ∧
    (strTruthy p.subagent_type = false → strTruthy p.category = false →
      resolveTarget p = { agentName := "sisyphus" }) ∧
    (categoryLookup "visual").map (fun cfg => cfg.temperature) =
      some (0.8 : ℚ) ∧
    (categoryLookup "quick").map (fun cfg => cfg.temperature) =
      some (0.1 : ℚ) := by
  refine ⟨?_, ?_, ?_, rfl, rfl⟩
  · intro a ha hne
    have hat : strTruthy (some a) = true := by simp [strTruthy, hne]
    simp [resolveTarget, hat, ha]
  · intro c cfg hsub hc hne hcfg
    have hct : strTruthy (some c) = true := by simp [strTruthy, hne]
    simp [resolveTarget, hsub, hct, hc, hcfg]
  · intro h1 h2
    simp [resolveTarget, h1, h2]

/-- Claim C9, witness: the resolution characterisation applied at
concrete requests: category "visual" yields sisyphus at 0.8, agent
"oracle" yields oracle with no override, and an empty request yields
sisyphus with no override. -/
theorem resolve_target_spec_witness :
    resolveTarget
        { description := "d", prompt := "p", category := some "visual",
          run_in_background := false, skills := [] } =
      { agentName := "sisyphus", temperature := some (0.8 : ℚ) } ∧
    resolveTarget
        { description := "d", prompt := "p",
          subagent_type := some "oracle",
          run_in_background := false, skills := [] } =
      { agentName := "oracle" } ∧
    resolveTarget
        { description := "d", prompt := "p",
          run_in_background := false, skills := [] } =
      { agentName := "sisyphus" } :=
  ⟨(resolve_target_spec
      { description := "d", prompt := "p", category := some "visual",
        run_in_background := false, skills := [] }).2.1
      "visual"
      { description := "Tâches visuelles, frontend, UI/UX, design"
        temperature := 0.8 }
      rfl rfl (by decide) rfl,
   (resolve_target_spec
      { description := "d", prompt := "p",
        subagent_type := some "oracle",
        run_in_background := false, skills := [] }).1
      "oracle" rfl (by decide),
   (resolve_target_spec
      { description := "d", prompt := "p",
        run_in_background := false, skills := [] }).2.2.1
      rfl rfl⟩

/-- Claim C10: retrieval yields null — reported by the output tool as
still running — for every task whose status is completed with no stored
result; startBackgroundTask stores exactly such a task, so every task it
creates is reported as still running immediately, and under any later
sequence of registry operations (none of which restarts that id) a
retrieval never surfaces a result and, whenever the task is still in the
registry, still reports it as still running. -/
theorem background_tasks_report_still_running_forever
    (s : ManagerState) (d a pr : String) (now : Int) (suffix : String)
    (ops : List RegistryOp)
    (hops : ∀ op ∈ ops,
      ¬ opStartsId op (startBackgroundTask s d a pr now suffix).1) :
    (∀ (s' : ManagerState) (id : TaskId) (t : BackgroundTask),
      s'.tasks id = some t → t.status = .completed → t.result = none →
        getTaskResult s' id = .null ∧
        backgroundOutputExecute s' { task_id := id } =
          stillRunningResult id) ∧
    (∀ b tmo,
      backgroundOutputExecute (startBackgroundTask s d a pr now suffix).2
          { task_id := (startBackgroundTask s d a pr now suffix).1,
            block := b, timeout := tmo } =
        stillRunningResult (startBackgroundTask s d a pr now suffix).1) ∧
    (∀ r : ToolResult,
      getTaskResult
          (ops.foldl step (startBackgroundTask s d a pr now suffix).2)
          (startBackgroundTask s d a pr now suffix).1 ≠ .result r) ∧
    (∀ t,
      (ops.foldl step
          (startBackgroundTask s d a pr now suffix).2).tasks
          (startBackgroundTask s d a pr now suffix).1 = some t →
      getTaskResult
          (ops.foldl step (startBackgroundTask s d a pr now suffix).2)
          (startBackgroundTask s d a pr now suffix).1 = .null) := by
  have hgen : ∀ (s' : ManagerState) (id : TaskId) (t : BackgroundTask),
      s'.tasks id = some t → t.status = .completed → t.result = none →
        getTaskResult s' id = .null := by
    intro s' id t ht hst hres
    obtain ⟨tid, td, ta, tst, tres, terr⟩ := t
    simp only at hst hres
    subst hst
    subst hres
    cases terr <;> simp [getTaskResult, ht]
  have h2 : (startBackgroundTask s d a pr now suffix).2.tasks
      (startBackgroundTask s d a pr now suffix).1 =
      some { id := { ts := now, suffix := suffix }, description := d,
             agent := a, status := .completed } := by
    simp [startBackgroundTask, setTask]
  have hinv := foldl_preserves_completed_entry
    { id := { ts := now, suffix := suffix }, description := d,
      agent := a, status := .completed } rfl ops
    (startBackgroundTask s d a pr now suffix).2
    (startBackgroundTask s d a pr now suffix).1 hops (Or.inr h2)
  refine ⟨?_, ?_, ?_, ?_⟩
  · intro s' id t ht hst hres
    have hnull := hgen s' id t ht hst hres
    exact ⟨hnull, by simp [backgroundOutputExecute, hnull]⟩
  · intro b tmo
    have hnull := hgen _ _ _ h2 rfl rfl
    simp [backgroundOutputExecute, hnull]
  · intro r
    rcases hinv with hn | hs
    · simp [getTaskResult, hn]
    · have hnull := hgen _ _ _ hs rfl rfl
      simp [hnull]
  · intro t ht
    rcases hinv with hn | hs
    · rw [hn] at ht; cases ht
    · exact hgen _ _ _ hs rfl rfl

/-- Claim C10, witness: the theorem applied at a concrete start on the
empty registry followed by a cancel-all: the immediate blocking-style
retrieval reports still running, and after the cancel-all no retrieval
surfaces a result. -/
theorem background_tasks_report_still_running_forever_witness :
    backgroundOutputExecute
        (startBackgroundTask emptyState "d" "explore" "p" 1000 "abc").2
        { task_id :=
            (startBackgroundTask emptyState "d" "explore" "p" 1000
              "abc").1,
          block := some true, timeout := some 60000 } =
      stillRunningResult
        (startBackgroundTask emptyState "d" "explore" "p" 1000 "abc").1 ∧
    getTaskResult
        ([RegistryOp.cancelEvery].foldl step
          (startBackgroundTask emptyState "d" "explore" "p" 1000
            "abc").2)
        (startBackgroundTask emptyState "d" "explore" "p" 1000 "abc").1 ≠
      .result { llmContent := "x", returnDisplay := "y" } :=
  ⟨(background_tasks_report_still_running_forever emptyState "d" "explore"
      "p" 1000 "abc" [.cancelEvery]
      (by intro op hop
          simp only [List.mem_singleton] at hop
          subst hop
          simp [opStartsId])).2.1 (some true) (some 60000),
   (background_tasks_report_still_running_forever emptyState "d" "explore"
      "p" 1000 "abc" [.cancelEvery]
      (by intro op hop
          simp only [List.mem_singleton] at hop
          subst hop
          simp [opStartsId])).2.2.1
      { llmContent := "x", returnDisplay := "y" }⟩

/-- Claim C7, counterexample: the claim states that cleanup removes every
terminal task older than the threshold, error included. The code's
cleanup tests only completed and cancelled, so a task in the terminal
status error, old enough to pass the age test, survives cleanup
unchanged. -/
theorem cleanup_keeps_old_error_tasks :
    (let id : TaskId := { ts := 0, suffix := "e" }
     let t : BackgroundTask :=
       { id := id, description := "d", agent := "oracle",
         status := .error, error := some { message := "boom" } }
     let s := setTask emptyState id t
     TaskStatus.isTerminal .error = true ∧
       id.ts < (10000000 : Int) - 3600000 ∧
       (cleanup s 10000000 3600000).tasks id = some t) := by
  refine ⟨rfl, by decide, rfl⟩

end Devora
